import Mathlib

/-!
Verification development for the xtb_client response multiplexer.

The definitions below are a shallow embedding of the Rust sources:
  * `src/api/response.rs`   — envelope decoding and the response channel,
  * `src/api/command.rs`    — outgoing command envelopes and their serde
                              serialization,
  * `src/client.rs`         — the client facade, tag registry and the
                              background receiver (dispatch) loop,
  * `src/connection/connection.rs` — the legacy connection module.

JSON values are modelled by an explicit inductive type; serde_json maps are
modelled as association lists in document order (serde_json `Map::get`
returns the value of the matching key).  Asynchronous reads are modelled by
the immediate outcome of one iteration of the read loop: either the call
returns (with the successor state of the shared channel state) or the caller
suspends on the notify primitive.
-/

set_option autoImplicit false

namespace Xtb

/-- JSON values as handled by the envelope codec (model of `serde_json::Value`;
numbers are collapsed to `Int`, which no claim inspects). -/
inductive Json where
  | null : Json
  | bool (b : Bool) : Json
  | num (n : Int) : Json
  | str (s : String) : Json
  | arr (elems : List Json) : Json
  | obj (fields : List (String × Json)) : Json

/-- Lookup of a key in a JSON object, as `serde_json::Map::get` (the first
matching key wins). -/
def jsonGet (fields : List (String × Json)) (key : String) : Option Json :=
  match fields with
  | [] => none
  | (k, v) :: rest => if k = key then some v else jsonGet rest key

/-- Model of `serde_json::Value::as_object`. -/
def json_as_object (v : Json) : Option (List (String × Json)) :=
  match v with
  | Json.obj fields => some fields
  | _ => none

/-- Model of `serde_json::Value::as_bool`. -/
def json_as_bool (v : Json) : Option Bool :=
  match v with
  | Json.bool b => some b
  | _ => none

/-- Detail of response content errors (`InvalidFormatErrorInfo`,
response.rs:242-248). -/
inductive InvalidFormatErrorInfo where
  | NotAnObject : InvalidFormatErrorInfo
  | StatusFieldMissing : InvalidFormatErrorInfo
  | InvalidStatusType : InvalidFormatErrorInfo
  | InvalidCustomTagType : InvalidFormatErrorInfo
deriving DecidableEq, Repr

/-- Error states for response parsing (`ParseResponseError`,
response.rs:232-238).  The serde error payload of `DeserializationError`
carries no information any claim inspects and is dropped. -/
inductive ParseResponseError where
  | InvalidDataFormat (info : InvalidFormatErrorInfo) : ParseResponseError
  | DeserializationError : ParseResponseError
deriving DecidableEq, Repr

/-- Basic info about a response used by the dispatching process
(`ResponseInfo`, response.rs:46-51).  `value` retains the full payload for
lazy typed decoding. -/
structure ResponseInfo where
  status : Bool
  custom_tag : Option String
  value : Json

/-- Model of `get_response_top_level_object` (response.rs:201-205). -/
def get_response_top_level_object (value : Json) :
    Except ParseResponseError (List (String × Json)) :=
  match json_as_object value with
  | some fields => Except.ok fields
  | none => Except.error (ParseResponseError.InvalidDataFormat InvalidFormatErrorInfo.NotAnObject)

/-- Model of `get_response_status_from_top_level_object` (response.rs:209-217). -/
def get_response_status_from_top_level_object (fields : List (String × Json)) :
    Except ParseResponseError Bool :=
  match jsonGet fields "status" with
  | none => Except.error (ParseResponseError.InvalidDataFormat InvalidFormatErrorInfo.StatusFieldMissing)
  | some raw =>
    match json_as_bool raw with
    | some b => Except.ok b
    | none => Except.error (ParseResponseError.InvalidDataFormat InvalidFormatErrorInfo.InvalidStatusType)

/-- Model of `get_custom_tag_from_top_level_object` (response.rs:221-228).
The source replaces an absent `"custom_tag"` entry by `Value::Null`
(`.or_else(|| Some(&Value::Null)).unwrap()`) before matching. -/
def get_custom_tag_from_top_level_object (fields : List (String × Json)) :
    Except ParseResponseError (Option String) :=
  match (jsonGet fields "custom_tag").getD Json.null with
  | Json.null => Except.ok none
  | Json.str s => Except.ok (some s)
  | _ => Except.error (ParseResponseError.InvalidDataFormat InvalidFormatErrorInfo.InvalidCustomTagType)

/-- Model of `ResponseInfo::new` (response.rs:56-65): classify the top level
object, the `status` field and the tag field, retaining the full payload. -/
def ResponseInfo.new (value : Json) : Except ParseResponseError ResponseInfo :=
  match get_response_top_level_object value with
  | Except.error e => Except.error e
  | Except.ok top_level =>
    match get_response_status_from_top_level_object top_level with
    | Except.error e => Except.error e
    | Except.ok status =>
      match get_custom_tag_from_top_level_object top_level with
      | Except.error e => Except.error e
      | Except.ok custom_tag => Except.ok ⟨status, custom_tag, value⟩

/-- Decoder written from the words of the specification (§4.1 and claim C7):
(a) a frame that is not a structured object fails with the malformed-frame
error; (b) a boolean `status` field is extracted, failing with the
missing-status / invalid-status-type error when absent or not boolean;
(c) the tag field is accepted only when absent, null or a string, any other
type failing with the invalid-tag-type error; (d) on success the full payload
is retained.  Compared against `ResponseInfo.new`, the decoder of the source. -/
def decode_per_spec (value : Json) : Except ParseResponseError ResponseInfo :=
  match value with
  | Json.obj fields =>
    match jsonGet fields "status" with
    | none => Except.error (ParseResponseError.InvalidDataFormat InvalidFormatErrorInfo.StatusFieldMissing)
    | some (Json.bool b) =>
      match jsonGet fields "custom_tag" with
      | none => Except.ok ⟨b, none, value⟩
      | some Json.null => Except.ok ⟨b, none, value⟩
      | some (Json.str s) => Except.ok ⟨b, some s, value⟩
      | some _ => Except.error (ParseResponseError.InvalidDataFormat InvalidFormatErrorInfo.InvalidCustomTagType)
    | some _ => Except.error (ParseResponseError.InvalidDataFormat InvalidFormatErrorInfo.InvalidStatusType)
  | _ => Except.error (ParseResponseError.InvalidDataFormat InvalidFormatErrorInfo.NotAnObject)

/-- Shared state of a response channel (`ResponseSharedState`,
response.rs:82-85): a FIFO queue of decoded responses plus the closed flag.
Both capability handles (`ResponseSink`, `ResponseStream`) reference this one
state, so the sink stored in the tag registry and the stream held by the
waiting caller observe the same queue and flag. -/
structure ResponseSharedState where
  queue : List ResponseInfo
  closed : Bool

/-- Model of `ResponseSharedState::new` (response.rs:89-94). -/
def ResponseSharedState.new : ResponseSharedState :=
  ⟨[], false⟩

/-- Model of `ResponseChannel::<ResponseSink>::write` (response.rs:181-184):
the item is pushed at the back of the queue unconditionally — the source does
not consult the closed flag — and waiters are notified. -/
def ResponseSharedState.write (s : ResponseSharedState) (info : ResponseInfo) :
    ResponseSharedState :=
  { s with queue := s.queue ++ [info] }

/-- Model of `ResponseChannel::close` (response.rs:139-141): the only effect
is setting the closed flag of the shared state.  No callback is invoked: the
channel and its shared state have no field holding a hook, and the method
body is the single assignment. -/
def ResponseSharedState.close (s : ResponseSharedState) : ResponseSharedState :=
  { s with closed := true }

/-- Immediate outcome of one iteration of the `read` loop
(response.rs:155-168): either the call returns an optional item together with
the successor shared state, or the caller suspends on `notify.notified()`. -/
inductive ReadOutcome where
  | done (result : Option ResponseInfo) (state : ResponseSharedState) : ReadOutcome
  | suspended : ReadOutcome

/-- Model of one iteration of `ResponseChannel::<ResponseStream>::read`
(response.rs:155-168): under the lock, a closed channel returns `None`
whatever the queue holds; otherwise a nonempty queue pops its head; otherwise
the caller suspends until notified. -/
def readStep (s : ResponseSharedState) : ReadOutcome :=
  if s.closed then ReadOutcome.done none s
  else
    match s.queue with
    | [] => ReadOutcome.suspended
    | info :: rest => ReadOutcome.done (some info) { s with queue := rest }

/-- Model of `ResponseChannel::<ResponseStream>::first` (response.rs:170-174):
await one read, then close.  When the read suspends, `first` is suspended. -/
def firstStep (s : ResponseSharedState) : ReadOutcome :=
  match readStep s with
  | ReadOutcome.done r s2 => ReadOutcome.done r (ResponseSharedState.close s2)
  | ReadOutcome.suspended => ReadOutcome.suspended

/-- The tag registry (`ResponseSinkLookup`, client.rs:19): a map from tag to
the producer handle of the registered channel, modelled as an association
list holding the channel's shared state. -/
abbrev Lookup := List (String × ResponseSharedState)

/-- Map lookup, as `HashMap::get` / `get_mut`. -/
def lookupGet (l : Lookup) (key : String) : Option ResponseSharedState :=
  match l with
  | [] => none
  | (k, v) :: rest => if k = key then some v else lookupGet rest key

/-- In-place update of an existing entry, the effect of writing through the
mutable reference returned by `HashMap::get_mut`. -/
def lookupUpdate (l : Lookup) (key : String) (nv : ResponseSharedState) : Lookup :=
  match l with
  | [] => []
  | (k, v) :: rest => if k = key then (k, nv) :: rest else (k, v) :: lookupUpdate rest key nv

/-- Map insertion, as `HashMap::insert`: an existing entry for the key is
replaced, otherwise the entry is added. -/
def lookupInsert (l : Lookup) (key : String) (nv : ResponseSharedState) : Lookup :=
  match l with
  | [] => [(key, nv)]
  | (k, v) :: rest => if k = key then (k, nv) :: rest else (k, v) :: lookupInsert rest key nv

/-- One inbound item of the websocket stream feeding the receiver loop
(client.rs:225-249): either a transport-level `Err` item, or an `Ok` message
whose text either parsed to a JSON value or failed to parse (the text-to-JSON
step lives in the `TryFrom<Message> for ResponseInfo` conversion, whose
failure lands in the same skipped `Err` branch of the receiver as any other
decode failure). -/
inductive Frame where
  | transportErr : Frame
  | text (parsed : Option Json) : Frame

/-- One iteration of the receiver (dispatch) loop body (client.rs:225-249):
transport `Err` items and frames failing to decode are skipped; a decoded
frame whose tag is present and registered is written to that channel's
producer handle; otherwise the frame is dropped. -/
def receiver_step (l : Lookup) (f : Frame) : Lookup :=
  match f with
  | Frame.transportErr => l
  | Frame.text none => l
  | Frame.text (some v) =>
    match ResponseInfo.new v with
    | Except.error _ => l
    | Except.ok info =>
      match info.custom_tag with
      | none => l
      | some tag =>
        match lookupGet l tag with
        | none => l
        | some st => lookupUpdate l tag (ResponseSharedState.write st info)

/-- The receiver loop run to completion (`stream_.for_each(...)`,
client.rs:225-250): the loop folds over the frames the transport yields and,
when the stream ends, simply returns — the source performs no action on the
registry or on any channel after the fold. -/
def receiver_run (l : Lookup) (frames : List Frame) : Lookup :=
  List.foldl receiver_step l frames

/-- Outgoing command envelope (`ApiCommand`, command.rs:3-13). -/
structure ApiCommand where
  command : String
  stream_session_id : Option String
  custom_tag : Option String
  arguments : Option Json

/-- Serde serialization of `ApiCommand` (command.rs:3-13): fields in
declaration order, renamed to camelCase by `rename_all = "camelCase"`, the
three optional fields omitted when `None` by `skip_serializing_if`. -/
def serialize_api_command (c : ApiCommand) : Json :=
  Json.obj
    ([("command", Json.str c.command)]
      ++ (match c.stream_session_id with
          | none => []
          | some s => [("streamSessionId", Json.str s)])
      ++ (match c.custom_tag with
          | none => []
          | some s => [("customTag", Json.str s)])
      ++ (match c.arguments with
          | none => []
          | some a => [("arguments", a)]))

/-- Error codes of the remote API (`XtbErrorCode`, response.rs:252-388). -/
inductive XtbErrorCode where
  | BE001 | BE002 | BE003 | BE004 | BE005 | BE006 | BE007 | BE008 | BE009
  | BE010 | BE011 | BE012 | BE013 | BE014 | BE016 | BE017 | BE018 | BE019
  | BE020 | BE021 | BE022 | BE023 | BE024 | BE025 | BE026 | BE027 | BE028
  | BE029 | BE030 | BE031 | BE032 | BE033 | BE034 | BE035 | BE036 | BE037
  | BE099 | BE094 | BE095 | BE096 | BE097 | BE098
  | BE101 | BE102 | BE103 | BE104 | BE105 | BE106 | BE110 | BE115 | BE116
  | BE117 | BE118 | BE200
  | EX000 | EX001 | EX002 | BE000 | EX003 | EX004 | EX005 | EX006 | EX007
  | EX008 | EX009 | EX010 | EX011
deriving DecidableEq, Repr

/-- Serde deserialization of the fieldless enum `XtbErrorCode`: the input
must be the string naming one of the variants. -/
def xtbErrorCode_from_string (s : String) : Option XtbErrorCode :=
  if s = "BE001" then some XtbErrorCode.BE001
  else if s = "BE002" then some XtbErrorCode.BE002
  else if s = "BE003" then some XtbErrorCode.BE003
  else if s = "BE004" then some XtbErrorCode.BE004
  else if s = "BE005" then some XtbErrorCode.BE005
  else if s = "BE006" then some XtbErrorCode.BE006
  else if s = "BE007" then some XtbErrorCode.BE007
  else if s = "BE008" then some XtbErrorCode.BE008
  else if s = "BE009" then some XtbErrorCode.BE009
  else if s = "BE010" then some XtbErrorCode.BE010
  else if s = "BE011" then some XtbErrorCode.BE011
  else if s = "BE012" then some XtbErrorCode.BE012
  else if s = "BE013" then some XtbErrorCode.BE013
  else if s = "BE014" then some XtbErrorCode.BE014
  else if s = "BE016" then some XtbErrorCode.BE016
  else if s = "BE017" then some XtbErrorCode.BE017
  else if s = "BE018" then some XtbErrorCode.BE018
  else if s = "BE019" then some XtbErrorCode.BE019
  else if s = "BE020" then some XtbErrorCode.BE020
  else if s = "BE021" then some XtbErrorCode.BE021
  else if s = "BE022" then some XtbErrorCode.BE022
  else if s = "BE023" then some XtbErrorCode.BE023
  else if s = "BE024" then some XtbErrorCode.BE024
  else if s = "BE025" then some XtbErrorCode.BE025
  else if s = "BE026" then some XtbErrorCode.BE026
  else if s = "BE027" then some XtbErrorCode.BE027
  else if s = "BE028" then some XtbErrorCode.BE028
  else if s = "BE029" then some XtbErrorCode.BE029
  else if s = "BE030" then some XtbErrorCode.BE030
  else if s = "BE031" then some XtbErrorCode.BE031
  else if s = "BE032" then some XtbErrorCode.BE032
  else if s = "BE033" then some XtbErrorCode.BE033
  else if s = "BE034" then some XtbErrorCode.BE034
  else if s = "BE035" then some XtbErrorCode.BE035
  else if s = "BE036" then some XtbErrorCode.BE036
  else if s = "BE037" then some XtbErrorCode.BE037
  else if s = "BE099" then some XtbErrorCode.BE099
  else if s = "BE094" then some XtbErrorCode.BE094
  else if s = "BE095" then some XtbErrorCode.BE095
  else if s = "BE096" then some XtbErrorCode.BE096
  else if s = "BE097" then some XtbErrorCode.BE097
  else if s = "BE098" then some XtbErrorCode.BE098
  else if s = "BE101" then some XtbErrorCode.BE101
  else if s = "BE102" then some XtbErrorCode.BE102
  else if s = "BE103" then some XtbErrorCode.BE103
  else if s = "BE104" then some XtbErrorCode.BE104
  else if s = "BE105" then some XtbErrorCode.BE105
  else if s = "BE106" then some XtbErrorCode.BE106
  else if s = "BE110" then some XtbErrorCode.BE110
  else if s = "BE115" then some XtbErrorCode.BE115
  else if s = "BE116" then some XtbErrorCode.BE116
  else if s = "BE117" then some XtbErrorCode.BE117
  else if s = "BE118" then some XtbErrorCode.BE118
  else if s = "BE200" then some XtbErrorCode.BE200
  else if s = "EX000" then some XtbErrorCode.EX000
  else if s = "EX001" then some XtbErrorCode.EX001
  else if s = "EX002" then some XtbErrorCode.EX002
  else if s = "BE000" then some XtbErrorCode.BE000
  else if s = "EX003" then some XtbErrorCode.EX003
  else if s = "EX004" then some XtbErrorCode.EX004
  else if s = "EX005" then some XtbErrorCode.EX005
  else if s = "EX006" then some XtbErrorCode.EX006
  else if s = "EX007" then some XtbErrorCode.EX007
  else if s = "EX008" then some XtbErrorCode.EX008
  else if s = "EX009" then some XtbErrorCode.EX009
  else if s = "EX010" then some XtbErrorCode.EX010
  else if s = "EX011" then some XtbErrorCode.EX011
  else none

/-- Success record of a command, instantiated at `D = ()` as `login` and
`logout` use it (`CommandSuccess<D>`, response.rs:17-30). -/
structure CommandSuccessU where
  return_data : Option Unit
  stream_session_id : Option String
  custom_tag : Option String
deriving DecidableEq, Repr

/-- Failure record of a command (`CommandFailed`, response.rs:34-42). -/
structure CommandFailed where
  error_code : XtbErrorCode
  error_description : String
deriving DecidableEq, Repr

/-- Serde deserialization of an `Option<String>` struct field carrying
`#[serde(default)]`: an absent or null entry is `None`, a string is `Some`,
any other type is a deserialization error. -/
def deserialize_opt_string_field (fields : List (String × Json)) (key : String) :
    Except ParseResponseError (Option String) :=
  match jsonGet fields key with
  | none => Except.ok none
  | some Json.null => Except.ok none
  | some (Json.str s) => Except.ok (some s)
  | some _ => Except.error ParseResponseError.DeserializationError

/-- Serde deserialization of an `Option<()>` struct field carrying
`#[serde(default)]`: an absent or null entry is `None`; a unit value only
deserializes from null, so any other present value is an error. -/
def deserialize_opt_unit_field (fields : List (String × Json)) (key : String) :
    Except ParseResponseError (Option Unit) :=
  match jsonGet fields key with
  | none => Except.ok none
  | some Json.null => Except.ok none
  | some _ => Except.error ParseResponseError.DeserializationError

/-- Serde deserialization of `CommandSuccess<()>` (response.rs:17-30): the
derive carries no rename attribute, so the expected keys are the snake_case
field names `"return_data"`, `"stream_session_id"` and `"custom_tag"`;
unknown keys are ignored and each field defaults to `None` when absent. -/
def commandSuccess_from_json (v : Json) : Except ParseResponseError CommandSuccessU :=
  match v with
  | Json.obj fields =>
    match deserialize_opt_unit_field fields "return_data" with
    | Except.error e => Except.error e
    | Except.ok return_data =>
      match deserialize_opt_string_field fields "stream_session_id" with
      | Except.error e => Except.error e
      | Except.ok stream_session_id =>
        match deserialize_opt_string_field fields "custom_tag" with
        | Except.error e => Except.error e
        | Except.ok custom_tag => Except.ok ⟨return_data, stream_session_id, custom_tag⟩
  | _ => Except.error ParseResponseError.DeserializationError

/-- Serde deserialization of `CommandFailed` (response.rs:34-42): both fields
are required — the error code a string naming an `XtbErrorCode` variant, the
description a string. -/
def commandFailed_from_json (v : Json) : Except ParseResponseError CommandFailed :=
  match v with
  | Json.obj fields =>
    match jsonGet fields "error_code" with
    | some (Json.str s) =>
      match xtbErrorCode_from_string s with
      | some code =>
        match jsonGet fields "error_description" with
        | some (Json.str d) => Except.ok ⟨code, d⟩
        | _ => Except.error ParseResponseError.DeserializationError
      | none => Except.error ParseResponseError.DeserializationError
    | _ => Except.error ParseResponseError.DeserializationError
  | _ => Except.error ParseResponseError.DeserializationError

/-- Model of `TryInto<CommandResult<()>> for ResponseInfo`
(response.rs:68-78): on `status = true` the retained payload deserializes
into the success record, otherwise into the failure record.  The inner
`Except CommandFailed CommandSuccessU` models `CommandResult<()>`. -/
def response_try_into_unit (r : ResponseInfo) :
    Except ParseResponseError (Except CommandFailed CommandSuccessU) :=
  match r.status with
  | true =>
    match commandSuccess_from_json r.value with
    | Except.error e => Except.error e
    | Except.ok s => Except.ok (Except.ok s)
  | false =>
    match commandFailed_from_json r.value with
    | Except.error e => Except.error e
    | Except.ok f => Except.ok (Except.error f)

/-- Errors of the client facade (`XtbClientError`, client.rs:262-274).  The
enumeration is exactly the source's: no missing-session-marker variant
exists. -/
inductive XtbClientError where
  | NoResponseReceived : XtbClientError
  | ParseResponseError (e : ParseResponseError) : XtbClientError
  | CommandFailed (e : CommandFailed) : XtbClientError
  | MessageCannotBeSend : XtbClientError
  | SerializationFailed : XtbClientError
deriving Repr

/-- Facade-owned state of `XtbClient` (client.rs:21-28): the stored session
marker, the tag counter and the tag registry. -/
structure ClientState where
  stream_session_id : Option String
  next_id : Nat
  sink_by_tag : Lookup

/-- Initial facade state built by `XtbClient::new` (client.rs:32-45):
no session marker, counter at 1, empty registry. -/
def initial_client_state : ClientState :=
  ⟨none, 1, []⟩

/-- Observable actions of a facade send operation, in program order. -/
inductive Event where
  | registerTag (tag : String) : Event
  | sendMessage (payload : Json) : Event

/-- Model of `XtbClient::generate_unique_custom_tag` (client.rs:85-89). -/
def generate_unique_custom_tag (s : ClientState) : String × ClientState :=
  ("cmd_" ++ toString s.next_id, { s with next_id := s.next_id + 1 })

/-- Registry effect of `XtbClient::make_response_channel` (client.rs:71-83):
a fresh channel is created and its producer handle inserted under the tag.
The call at client.rs:75 to `add_after_close_callback` names a method defined
nowhere in the sources, and the channel's shared state (queue, closed flag)
has no field able to store a hook, so no cleanup hook becomes attached to the
channel here. -/
def make_response_channel (s : ClientState) (custom_tag : String) : ClientState :=
  { s with sink_by_tag := lookupInsert s.sink_by_tag custom_tag ResponseSharedState.new }

/-- Outcome of a facade send operation: the final facade state, the emitted
actions in program order, and the facade state in effect at the instant the
send is performed. -/
structure SendOutcome where
  state : ClientState
  events : List Event
  state_at_send : ClientState

/-- Model of `XtbClient::send_api_command` (client.rs:47-54) in program
order: build the command (advancing the tag counter), register the response
channel under the tag, serialize, then hand the message to the transport. -/
def send_api_command (s : ClientState) (command : String) (args : Option Json) :
    SendOutcome :=
  let pair := generate_unique_custom_tag s
  let cmd : ApiCommand :=
    { command := command, stream_session_id := none, custom_tag := some pair.1,
      arguments := args }
  let s2 := make_response_channel pair.2 pair.1
  let msg := serialize_api_command cmd
  { state := s2,
    events := [Event.registerTag pair.1] ++ [Event.sendMessage msg],
    state_at_send := s2 }

/-- Serde serialization of `LoginArg` (account.rs): camelCase rename gives
keys `"userId"` and `"password"`. -/
def login_args_json (user_id password : String) : Json :=
  Json.obj [("userId", Json.str user_id), ("password", Json.str password)]

/-- Send phase of `XtbClient::login` (client.rs:97-102). -/
def login_send (s : ClientState) (user_id password : String) : SendOutcome :=
  send_api_command s "login" (some (login_args_json user_id password))

/-- Send phase of `XtbClient::logout` (client.rs:115-118). -/
def logout_send (s : ClientState) : SendOutcome :=
  send_api_command s "logout" none

/-- Response phase of `XtbClient::login` (client.rs:105-112): convert the
received response into `CommandResult<()>`; on success store
`resp.stream_session_id` into the facade state and return `Ok`; on a remote
failure return `CommandFailed`. -/
def login_handle_response (s : ClientState) (info : ResponseInfo) :
    Except XtbClientError ClientState :=
  match response_try_into_unit info with
  | Except.error e => Except.error (XtbClientError.ParseResponseError e)
  | Except.ok (Except.ok resp) =>
    Except.ok { s with stream_session_id := resp.stream_session_id }
  | Except.ok (Except.error err) => Except.error (XtbClientError.CommandFailed err)

/-- System-level effect of `ResponseChannel::close` (response.rs:139-141) on
a channel registered in the tag registry: the registered producer shares the
closed flag with the handle being closed, so the registry entry now reads
closed; nothing else changes — the body of `close` is the single assignment
to the flag, and no registry removal happens. -/
def closeChannel (l : Lookup) (tag : String) : Lookup :=
  match lookupGet l tag with
  | none => l
  | some st => lookupUpdate l tag (ResponseSharedState.close st)

/-- One receiver half of `ApiWrapper` (client.rs:211-258): the spawned
receiver task captures a clone of the `Arc` holding the tag registry;
`lookupRef` is the address of that shared allocation. -/
structure ApiWrapper where
  lookupRef : Nat

/-- Model of `ApiWrapper::new` (client.rs:218-258): the wrapper's receiver
runs over the registry allocation it was handed. -/
def ApiWrapper.new (lookupRef : Nat) : ApiWrapper :=
  ⟨lookupRef⟩

/-- The two wrappers held by `XtbClient` plus the registry allocation the
facade itself keeps (client.rs:21-28). -/
structure XtbClientHandles where
  api : ApiWrapper
  stream_api : ApiWrapper
  sink_by_tag : Nat

/-- Model of `XtbClient::new` (client.rs:32-45): one registry is allocated
(`alloc` being its address) and the same `Arc` clone is handed to both
`ApiWrapper::new` calls as well as kept by the facade. -/
def XtbClient.new (alloc : Nat) : XtbClientHandles :=
  ⟨ApiWrapper.new alloc, ApiWrapper.new alloc, alloc⟩

/-- Heap of registry allocations, mapping an allocation address to the
registry it holds. -/
abbrev Heap := Nat → Lookup

/-- One iteration of a wrapper's receiver over the heap: the receiver of `w`
reads and writes exactly the allocation of `w.lookupRef` with the
`receiver_step` of client.rs:225-249. -/
def wrapper_receive_step (h : Heap) (w : ApiWrapper) (f : Frame) : Heap :=
  fun r => if r = w.lookupRef then receiver_step (h w.lookupRef) f else h r

/-- Result of a computation that may panic instead of returning. -/
inductive PanicOr (α : Type) where
  | panic : PanicOr α
  | value (a : α) : PanicOr α

/-- The legacy untyped response wrapper (`Response`, connection.rs:119-121). -/
structure LegacyResponse where
  value : Json

/-- Model of `impl From<String> for Response` (connection.rs:157-163): the
input is the outcome of `serde_json::from_str` on the inbound text — `some`
when the text parsed as JSON, `none` when it did not.  The source calls
`.unwrap()` on that outcome, so a failed parse panics instead of producing
any typed error. -/
def legacyResponse_from_parse (parsed : Option Json) : PanicOr LegacyResponse :=
  match parsed with
  | none => PanicOr.panic
  | some v => PanicOr.value ⟨v⟩

/-! Helper lemmas about the association-list registry. -/

theorem lookupGet_insert_self (l : Lookup) (key : String) (nv : ResponseSharedState) :
    lookupGet (lookupInsert l key nv) key = some nv := by
  induction l with
  | nil => simp [lookupInsert, lookupGet]
  | cons p rest ih =>
    obtain ⟨k, v⟩ := p
    by_cases hk : k = key
    · simp [lookupInsert, lookupGet, hk]
    · simp [lookupInsert, lookupGet, hk, ih]

theorem lookupGet_update_of_get (l : Lookup) (key : String)
    (st nv : ResponseSharedState) (h : lookupGet l key = some st) :
    lookupGet (lookupUpdate l key nv) key = some nv := by
  induction l with
  | nil => simp [lookupGet] at h
  | cons p rest ih =>
    obtain ⟨k, v⟩ := p
    by_cases hk : k = key
    · simp [lookupUpdate, lookupGet, hk]
    · simp only [lookupGet, hk, if_false] at h
      simp [lookupUpdate, lookupGet, hk, ih h]

theorem lookupGet_update_ne (l : Lookup) (key other : String)
    (nv : ResponseSharedState) (h : other ≠ key) :
    lookupGet (lookupUpdate l key nv) other = lookupGet l other := by
  induction l with
  | nil => simp [lookupUpdate]
  | cons p rest ih =>
    obtain ⟨k, v⟩ := p
    by_cases hk : k = key
    · subst hk
      have hko : ¬ k = other := fun hh => h (hh ▸ rfl)
      simp [lookupUpdate, lookupGet, hko]
    · by_cases hko : k = other
      · subst hko
        simp [lookupUpdate, lookupGet, hk]
      · simp [lookupUpdate, lookupGet, hk, hko, ih]

/-- A decoded frame whose tag is registered is delivered by one receiver
iteration as an in-place write to the registered channel. -/
theorem receiver_step_delivers (l : Lookup) (v : Json) (info : ResponseInfo)
    (t : String) (st : ResponseSharedState)
    (hdec : ResponseInfo.new v = Except.ok info)
    (htag : info.custom_tag = some t)
    (hreg : lookupGet l t = some st) :
    receiver_step l (Frame.text (some v)) =
      lookupUpdate l t (ResponseSharedState.write st info) := by
  simp only [receiver_step, hdec, htag, hreg]

/-- A decoded frame whose tag is absent or unregistered leaves the registry
untouched. -/
theorem receiver_step_drops (l : Lookup) (v : Json) (info : ResponseInfo)
    (hdec : ResponseInfo.new v = Except.ok info)
    (hdrop : Option.bind info.custom_tag (lookupGet l) = none) :
    receiver_step l (Frame.text (some v)) = l := by
  simp only [receiver_step, hdec]
  cases htag : info.custom_tag with
  | none => rfl
  | some t =>
    rw [htag] at hdrop
    simp only [Option.bind] at hdrop
    simp [hdrop]

/-- C7: for every raw inbound frame, the decoder of the source classifies it
exactly as the specification states — a non-object frame fails with the
malformed-frame error; an object without a boolean `status` fails with the
missing-status or invalid-status-type error; the tag field is accepted only
when absent, null or a string, any other type failing with the
invalid-tag-type error; otherwise decoding succeeds and retains the full
payload.  Stated as equality with the decoder written from the
specification's words. -/
theorem decode_classification (v : Json) : ResponseInfo.new v = decode_per_spec v := by
  cases v with
  | obj fields =>
    simp only [ResponseInfo.new, get_response_top_level_object, json_as_object,
      decode_per_spec]
    cases hs : jsonGet fields "status" with
    | none => simp [get_response_status_from_top_level_object, hs]
    | some raw =>
      cases raw with
      | bool b =>
        simp only [get_response_status_from_top_level_object, hs, json_as_bool]
        cases ht : jsonGet fields "custom_tag" with
        | none => simp [get_custom_tag_from_top_level_object, ht]
        | some tv =>
          cases tv <;> simp [get_custom_tag_from_top_level_object, ht]
      | null => simp [get_response_status_from_top_level_object, hs, json_as_bool]
      | num n => simp [get_response_status_from_top_level_object, hs, json_as_bool]
      | str s => simp [get_response_status_from_top_level_object, hs, json_as_bool]
      | arr xs => simp [get_response_status_from_top_level_object, hs, json_as_bool]
      | obj m => simp [get_response_status_from_top_level_object, hs, json_as_bool]
  | null => rfl
  | bool b => rfl
  | num n => rfl
  | str s => rfl
  | arr xs => rfl

/-- C1: when the dispatch loop processes a decoded frame carrying a
registered tag `t1`, it writes the response only to the channel registered
under `t1` — the entry of any distinct tag `t2` is untouched — and a decoded
frame whose tag is absent or unregistered is dropped with no change to the
registry at all. -/
theorem dispatch_routes_only_matching_tag
    (l : Lookup) (v v2 : Json) (info info2 : ResponseInfo) (t1 t2 : String)
    (st1 : ResponseSharedState)
    (hdec : ResponseInfo.new v = Except.ok info)
    (htag : info.custom_tag = some t1)
    (hne : t1 ≠ t2)
    (hreg : lookupGet l t1 = some st1)
    (hdec2 : ResponseInfo.new v2 = Except.ok info2)
    (hdrop : Option.bind info2.custom_tag (lookupGet l) = none) :
    lookupGet (receiver_step l (Frame.text (some v))) t1
        = some (ResponseSharedState.write st1 info) ∧
    lookupGet (receiver_step l (Frame.text (some v))) t2 = lookupGet l t2 ∧
    receiver_step l (Frame.text (some v2)) = l := by
  refine ⟨?_, ?_, ?_⟩
  · rw [receiver_step_delivers l v info t1 st1 hdec htag hreg]
    exact lookupGet_update_of_get l t1 st1 _ hreg
  · rw [receiver_step_delivers l v info t1 st1 hdec htag hreg]
    exact lookupGet_update_ne l t1 t2 _ (Ne.symm hne)
  · exact receiver_step_drops l v2 info2 hdec2 hdrop

/-- Registry with the two distinct tags of the C1 witness registered. -/
def witness_lookup : Lookup :=
  [("cmd_1", ResponseSharedState.new), ("cmd_2", ResponseSharedState.new)]

/-- Frame of the C1 witness carrying the registered tag. -/
def witness_frame_tagged : Json :=
  Json.obj [("status", Json.bool true), ("custom_tag", Json.str "cmd_1")]

/-- Decoded form of `witness_frame_tagged`. -/
def witness_info_tagged : ResponseInfo :=
  ⟨true, some "cmd_1", witness_frame_tagged⟩

/-- Frame of the C1 witness with no tag. -/
def witness_frame_untagged : Json :=
  Json.obj [("status", Json.bool true)]

/-- Decoded form of `witness_frame_untagged`. -/
def witness_info_untagged : ResponseInfo :=
  ⟨true, none, witness_frame_untagged⟩

/-- Witness of C1 at a concrete registry holding tags `cmd_1` and `cmd_2`:
the frame tagged `cmd_1` is written to `cmd_1`'s channel only, and the
untagged frame is dropped. -/
theorem dispatch_routes_only_matching_tag_witness :
    lookupGet (receiver_step witness_lookup (Frame.text (some witness_frame_tagged))) "cmd_1"
        = some (ResponseSharedState.write ResponseSharedState.new witness_info_tagged) ∧
    lookupGet (receiver_step witness_lookup (Frame.text (some witness_frame_tagged))) "cmd_2"
        = lookupGet witness_lookup "cmd_2" ∧
    receiver_step witness_lookup (Frame.text (some witness_frame_untagged)) = witness_lookup :=
  dispatch_routes_only_matching_tag witness_lookup witness_frame_tagged
    witness_frame_untagged witness_info_tagged witness_info_untagged
    "cmd_1" "cmd_2" ResponseSharedState.new rfl rfl (by decide) rfl rfl rfl

/-- C2 (refuting evaluation): when the transport yields an error item the
receiver loop skips it and continues, and when the stream then ends the loop
returns without closing any registered channel — the registry still holds the
pending tag with an open, empty channel, on which both `read` and `first`
suspend instead of returning the empty result that would surface as
`NoResponse`. -/
theorem receiver_termination_leaves_channels_open :
    receiver_run [("cmd_1", ResponseSharedState.new)] [Frame.transportErr]
        = [("cmd_1", ResponseSharedState.new)] ∧
    readStep ResponseSharedState.new = ReadOutcome.suspended ∧
    firstStep ResponseSharedState.new = ReadOutcome.suspended :=
  ⟨rfl, rfl, rfl⟩

/-- Command envelope of the C3 round-trip evaluation. -/
def roundtrip_command : ApiCommand :=
  ⟨"login", none, some "cmd_1", none⟩

/-- Reply frame echoing the encoded tag under the encoder's key `customTag`,
with the `status` field a response frame must carry. -/
def roundtrip_reply_frame : Json :=
  Json.obj [("status", Json.bool true), ("customTag", Json.str "cmd_1")]

/-- C3 (refuting evaluation): serializing a command envelope yields an object
with keys `command` and `customTag` and no `status`, so the response decoder
fails on it with the missing-status error rather than recovering anything;
and even on a frame carrying the mandatory `status` together with the
encoder's `customTag` key, the decoder — which reads the tag from
`custom_tag` — returns a decoded tag of `none`, not `some "cmd_1"`. -/
theorem roundtrip_fails_on_decode :
    serialize_api_command roundtrip_command
        = Json.obj [("command", Json.str "login"), ("customTag", Json.str "cmd_1")] ∧
    ResponseInfo.new (serialize_api_command roundtrip_command)
        = Except.error (ParseResponseError.InvalidDataFormat
            InvalidFormatErrorInfo.StatusFieldMissing) ∧
    ResponseInfo.new roundtrip_reply_frame
        = Except.ok ⟨true, none, roundtrip_reply_frame⟩ ∧
    (none : Option String) ≠ some "cmd_1" :=
  ⟨rfl, rfl, rfl, fun h => Option.noConfusion h⟩

/-- C4 (refuting evaluation): register tag `cmd_1`, then close the channel.
`close` only sets the closed flag of the shared state — no cleanup hook runs
(none is stored anywhere) — so afterwards the registry still contains an
entry for the tag, mapping it to the now-closed channel. -/
theorem close_does_not_deregister_tag :
    closeChannel (make_response_channel initial_client_state "cmd_1").sink_by_tag "cmd_1"
        = [("cmd_1", ⟨[], true⟩)] ∧
    lookupGet (closeChannel (make_response_channel initial_client_state "cmd_1").sink_by_tag "cmd_1")
        "cmd_1" = some ⟨[], true⟩ :=
  ⟨rfl, rfl⟩

/-- A concrete decoded response used as a queue item. -/
def sample_info : ResponseInfo :=
  ⟨true, none, Json.null⟩

/-- C5 counterexample: writing to a closed channel is not a no-op — the item
is appended, so the shared queue of a closed empty channel is no longer empty
after `write`, contrary to the claim that the queue is unchanged. -/
theorem closed_write_mutates_queue_cex :
    (ResponseSharedState.write ⟨[], true⟩ sample_info).queue ≠ [] :=
  fun h => List.noConfusion h

/-- C5 as amended: on a closed channel, `write` appends the item to the
shared queue (the queue does change), but the item is never yielded — `read`
on a closed channel returns the empty result whatever the queue holds — and
closing an already-closed channel leaves the state unchanged. -/
theorem closed_channel_behavior (s : ResponseSharedState) (i : ResponseInfo)
    (h : s.closed = true) :
    ResponseSharedState.write s i = ⟨s.queue ++ [i], true⟩ ∧
    readStep s = ReadOutcome.done none s ∧
    ResponseSharedState.close s = s := by
  obtain ⟨q, c⟩ := s
  simp only at h
  subst h
  exact ⟨rfl, rfl, rfl⟩

/-- Witness of the amended C5 at the closed empty channel. -/
theorem closed_channel_behavior_witness :
    (⟨[], true⟩ : ResponseSharedState).closed = true ∧
    (ResponseSharedState.write ⟨[], true⟩ sample_info = ⟨[] ++ [sample_info], true⟩ ∧
     readStep ⟨[], true⟩ = ReadOutcome.done none ⟨[], true⟩ ∧
     ResponseSharedState.close ⟨[], true⟩ = ⟨[], true⟩) :=
  ⟨rfl, closed_channel_behavior ⟨[], true⟩ sample_info rfl⟩

/-- The simulated success reply of the specification's Scenario A. -/
def scenarioA_reply : Json :=
  Json.obj [("status", Json.bool true), ("customTag", Json.str "cmd_1"),
    ("streamSessionId", Json.str "abc")]

/-- C6 (refuting evaluation): the Scenario A reply decodes successfully (with
a decoded tag of `none`, since the decoder reads `custom_tag`), and feeding
it to login's success handling returns `Ok` with the stored session marker
still `none` — the wire key `streamSessionId` is not among the snake_case
keys the success-record deserializer reads — rather than storing `"abc"`, and
with no missing-session-marker error surfacing (`XtbClientError` has no such
variant). -/
theorem login_scenarioA_marker_lost :
    ResponseInfo.new scenarioA_reply = Except.ok ⟨true, none, scenarioA_reply⟩ ∧
    login_handle_response initial_client_state ⟨true, none, scenarioA_reply⟩
        = Except.ok ⟨none, 1, []⟩ ∧
    (none : Option String) ≠ some "abc" :=
  ⟨rfl, rfl, fun h => Option.noConfusion h⟩

/-- C8 (refuting evaluation): the receiver loop of the client does skip a
frame that fails to decode and processes the next well-formed frame, but the
legacy connection path turns an inbound text that is not valid JSON into a
panic — `From<String> for Response` unwraps the parse outcome — instead of
yielding a typed error. -/
theorem invalid_json_aborts_legacy_path :
    legacyResponse_from_parse none = PanicOr.panic ∧
    receiver_run [("cmd_1", ResponseSharedState.new)]
        [Frame.text none, Frame.text (some witness_frame_tagged)]
      = [("cmd_1", ResponseSharedState.write ResponseSharedState.new witness_info_tagged)] :=
  ⟨rfl, rfl⟩

/-- A facade send operation first registers the tag, then sends: its actions
are exactly the registration followed by the send, and the facade state in
effect at the send already maps the tag to the fresh channel. -/
def registers_tag_before_send (o : SendOutcome) : Prop :=
  ∃ tag msg,
    o.events = [Event.registerTag tag, Event.sendMessage msg] ∧
    lookupGet o.state_at_send.sink_by_tag tag = some ResponseSharedState.new

/-- C9: in every facade send operation — the generic command send, login and
logout — the tag-to-producer mapping is inserted into the registry strictly
before the command message is handed to the transport: the emitted actions
are the registration followed by the send, and at the instant of the send the
registry already contains the tag. -/
theorem facade_registers_tag_before_send (s : ClientState) (command : String)
    (args : Option Json) (user_id password : String) :
    registers_tag_before_send (send_api_command s command args) ∧
    registers_tag_before_send (login_send s user_id password) ∧
    registers_tag_before_send (logout_send s) := by
  refine ⟨?_, ?_, ?_⟩ <;>
    exact ⟨"cmd_" ++ toString s.next_id, _, rfl, lookupGet_insert_self _ _ _⟩

/-- Heap of the C10 witness: the shared allocation holds the registry with
the pending tags. -/
def witness_heap : Heap :=
  fun _ => witness_lookup

/-- C10: the command connection and the stream connection share one and the
same tag registry — both wrappers built by `XtbClient::new` reference the
same allocation, their receivers are the same step over that allocation, and
a decoded frame carrying a registered tag is written to that tag's channel in
the shared registry whichever of the two transports it arrived on. -/
theorem shared_registry_across_transports (alloc : Nat) (h : Heap) (v : Json)
    (info : ResponseInfo) (t : String) (st : ResponseSharedState)
    (hdec : ResponseInfo.new v = Except.ok info)
    (htag : info.custom_tag = some t)
    (hreg : lookupGet (h alloc) t = some st) :
    (XtbClient.new alloc).api.lookupRef = (XtbClient.new alloc).stream_api.lookupRef ∧
    (∀ f : Frame, wrapper_receive_step h (XtbClient.new alloc).api f
        = wrapper_receive_step h (XtbClient.new alloc).stream_api f) ∧
    lookupGet (wrapper_receive_step h (XtbClient.new alloc).stream_api
        (Frame.text (some v)) alloc) t = some (ResponseSharedState.write st info) ∧
    lookupGet (wrapper_receive_step h (XtbClient.new alloc).api
        (Frame.text (some v)) alloc) t = some (ResponseSharedState.write st info) := by
  have hstep : ∀ w : ApiWrapper, w.lookupRef = alloc →
      lookupGet (wrapper_receive_step h w (Frame.text (some v)) alloc) t
        = some (ResponseSharedState.write st info) := by
    intro w hw
    have hloc : wrapper_receive_step h w (Frame.text (some v)) alloc
        = receiver_step (h alloc) (Frame.text (some v)) := by
      simp [wrapper_receive_step, hw]
    rw [hloc, receiver_step_delivers (h alloc) v info t st hdec htag hreg]
    exact lookupGet_update_of_get (h alloc) t st _ hreg
  exact ⟨rfl, fun f => rfl, hstep _ rfl, hstep _ rfl⟩

/-- Witness of C10 at a concrete shared allocation holding tag `cmd_1`: the
two wrapper references coincide and a frame tagged `cmd_1` arriving on the
stream transport is delivered into the shared registry's channel. -/
theorem shared_registry_across_transports_witness :
    (XtbClient.new 0).api.lookupRef = (XtbClient.new 0).stream_api.lookupRef ∧
    lookupGet (wrapper_receive_step witness_heap (XtbClient.new 0).stream_api
        (Frame.text (some witness_frame_tagged)) 0) "cmd_1"
      = some (ResponseSharedState.write ResponseSharedState.new witness_info_tagged) :=
  ⟨(shared_registry_across_transports 0 witness_heap witness_frame_tagged
      witness_info_tagged "cmd_1" ResponseSharedState.new rfl rfl rfl).1,
   (shared_registry_across_transports 0 witness_heap witness_frame_tagged
      witness_info_tagged "cmd_1" ResponseSharedState.new rfl rfl rfl).2.2.1⟩

end Xtb
